import Mathlib

/-!
Verification development for the Interactive Alignment Toolkit (IAT) panel of
the mle-app repository.  The definitions below are a shallow embedding of
`src/components/alignment/panel/panel.alignment.jsx` (the panel component and
its pointer-event handlers).  The small helper utilities that the panel calls
(`scaleToFit`, `getScale`, `scalePoint`, `inRange`, the pointer-state setters
and the canvas-layer primitives) live in modules of the repository that are not
part of the provided sources; those are modelled from the specification text
and are marked as such in their doc comments.

Numeric model: JavaScript numbers are IEEE doubles, but every value the panel
stores has passed through `Math.round` and the intermediate products in scope
are exact integer ratios, so coordinates are embedded as `Int` and the scale
ratios as exact integer fractions.  `Math.round q` (round half toward plus
infinity) on a fraction `a / b` is `⌊a / b + 1 / 2⌋ = (2 a + b).fdiv (2 b)`.
-/

/-- An integer point, as produced by `Math.round`ed pointer math. -/
structure PointI where
  x : Int
  y : Int
deriving DecidableEq, Repr

/-- A rectangle `{x, y, w, h}` as used throughout the panel. -/
structure Rect where
  x : Int
  y : Int
  w : Int
  h : Int
deriving DecidableEq, Repr

/-- A width/height pair as returned by `scaleToFit`. -/
structure Dims where
  w : Int
  h : Int
deriving DecidableEq, Repr

/-- JavaScript `Math.round (a / b)`: round-half-up of the exact fraction
`a / b`, computed as `⌊(2 a + b) / (2 b)⌋` with floor division.  For `b = 0`
the result is `0` (that case is never reached by the claims). -/
def jsRoundFrac (a b : Int) : Int :=
  (2 * a + b).fdiv (2 * b)

/-- JavaScript `Math.abs` on an integer. -/
def jsAbs (x : Int) : Int :=
  if x < 0 then -x else x

/-- A per-axis scale factor kept as an exact fraction `num / den`. -/
structure Frac where
  num : Int
  den : Int
deriving DecidableEq, Repr

/-- Multiply a coordinate by a scale fraction and `Math.round` the result. -/
def Frac.apply (f : Frac) (v : Int) : Int :=
  jsRoundFrac (f.num * v) f.den

/-- The two per-axis scale factors returned by `getScale`. -/
structure ScalePair where
  x : Frac
  y : Frac
deriving DecidableEq, Repr

/-- Modelled from the spec: `getScale(fromRect, toRect)` of the scaler module
(not among the provided sources) returns the per-axis factor that multiplies a
coordinate measured against `toRect` into one measured against `fromRect`,
i.e. the ratio `fromRect.w / toRect.w` per axis.  The direction is fixed by
the worked example of the spec (canvas pixel (400,300) on an 800×600 render of
a 4000×3000 image maps to image point (2000,1500), so
`getScale(image_dims, render_dims).x = 4000 / 800 = 5`) and by every call site
in `panel.alignment.jsx`. -/
def getScale (fromRect toRect : Rect) : ScalePair :=
  { x := { num := fromRect.w, den := toRect.w },
    y := { num := fromRect.h, den := toRect.h } }

/-- Modelled from the spec: `scalePoint(pt, fromRect, toRect)` of the scaler
module applies `getScale` to a point, rounding each coordinate. -/
def scalePoint (pt : PointI) (fromRect toRect : Rect) : PointI :=
  let s := getScale fromRect toRect
  { x := s.x.apply pt.x, y := s.y.apply pt.y }

/-- Modelled from the spec: `inRange(px, py, cx, cy, radius)` of the scaler
module is the Euclidean proximity test used for control-point hit testing. -/
def inRange (px py cx cy radius : Int) : Bool :=
  (px - cx) * (px - cx) + (py - cy) * (py - cy) ≤ radius * radius

/-- Modelled from the spec: `scaleToFit(srcW, srcH, maxW, maxH)` of the scaler
module returns the largest rectangle preserving the `srcW / srcH` aspect ratio
that fits within `(maxW, maxH)`: the common scale factor is
`min (maxW / srcW) (maxH / srcH)` and each side is `Math.round`ed. -/
def scaleToFit (srcW srcH maxW maxH : Int) : Dims :=
  if maxW * srcH ≤ maxH * srcW then
    { w := jsRoundFrac (srcW * maxW) srcW, h := jsRoundFrac (srcH * maxW) srcW }
  else
    { w := jsRoundFrac (srcW * maxH) srcH, h := jsRoundFrac (srcH * maxH) srcH }

/-- Panel lifecycle status (`panel.status`). -/
inductive Status where
  | empty | load | loading | loaded | update | downloading | error
deriving DecidableEq, Repr

/-- The shared toolkit interaction mode. -/
inductive Mode where
  | pan | select | crop
deriving DecidableEq, Repr

/-- User-visible structured messages emitted through `iat.setMessage`.  The
identifiers name the message catalogue entries of the repository
(`errors.canvas` of the schema services) and the success toasts of the
panel. -/
inductive Msg where
  | maxControlPoints
  | missingControlPoints
  | collinearPts
  | emptyCanvas
  | mismatchedDims
  | cropFailed
  | resetSuccess
  | syncSuccess
  | loadFailed
deriving DecidableEq, Repr

/-- The ten pointer-event handler functions of `panel.alignment.jsx` that can
be installed in a panel's `methods` bundle. -/
inductive Handler where
  | startPanImage | endPanImage | panImage
  | selectControlPoint | deselectControlPoint | moveControlPoint
  | startCropBox | endCropBox | selectCropBox | moveCropBox
deriving DecidableEq, Repr

/-- Which interaction mode each handler function belongs to. -/
def handlerMode : Handler → Mode
  | .startPanImage => .pan
  | .endPanImage => .pan
  | .panImage => .pan
  | .selectControlPoint => .select
  | .deselectControlPoint => .select
  | .moveControlPoint => .select
  | .startCropBox => .crop
  | .endCropBox => .crop
  | .selectCropBox => .crop
  | .moveCropBox => .crop

/-- A bound handler set (`panel.methods`): the four mouse handlers.  (The key
handlers are not involved in any claim.) -/
structure Methods where
  down : Handler
  up : Handler
  move : Handler
  out : Handler
deriving DecidableEq, Repr

/-- The pan-mode bundle installed by the mode effect. -/
def panBundle : Methods :=
  { down := .startPanImage, up := .endPanImage, move := .panImage, out := .endPanImage }

/-- The select-mode bundle installed by the mode effect. -/
def selectBundle : Methods :=
  { down := .selectControlPoint, up := .deselectControlPoint,
    move := .moveControlPoint, out := .deselectControlPoint }

/-- The crop-mode bundle with the new-box `move` variant, installed by the
mode effect and restored by `_endCropBox`. -/
def cropSelectBundle : Methods :=
  { down := .startCropBox, up := .endCropBox, move := .selectCropBox, out := .endCropBox }

/-- The crop-mode bundle with the move-box `move` variant, installed by
`_startCropBox` when the cursor lands inside the existing box. -/
def cropMoveBundle : Methods :=
  { down := .startCropBox, up := .endCropBox, move := .moveCropBox, out := .endCropBox }

/-- A pixel buffer.  Its contents never matter to the claims, so rasters are
identified by an abstract token. -/
abbrev Raster : Type := Nat

/-- What is currently drawn on an overlay canvas layer: nothing, a set of
control-point markers, or a crop bounding box.  Each drawing primitive of the
overlay layer replaces the previous markup. -/
inductive OverlayState where
  | empty
  | points (pts : List PointI)
  | box (x y w h : Int)
deriving DecidableEq, Repr

/-- Modelled from the spec: the per-panel pointer state of the pointer module
(not among the provided sources): cursor position, drag anchor, control
points (image space), active crop box (image space), selected control-point
index and magnifier toggle. -/
structure Pointer where
  x : Int
  y : Int
  selected : Option PointI
  points : List PointI
  selectBox : Rect
  index : Int
  magnify : Bool
deriving DecidableEq, Repr

/-- The panel properties involved in the claims.  All `*_dims` are rectangles
in the space named. -/
structure Props where
  image_dims : Rect
  render_dims : Rect
  base_dims : Rect
  source_dims : Rect
deriving DecidableEq, Repr

/-- The state of one alignment panel, together with the shared toolkit mode
that gates its crop tool. -/
structure PanelState where
  status : Status
  image : Option Raster
  source : Option Raster
  properties : Props
  pointer : Pointer
  methods : Methods
  overlay1 : OverlayState
  overlay2 : OverlayState
  mode : Mode
deriving DecidableEq, Repr

/-- The toolkit options consumed by the handlers (`iat.options`). -/
structure Options where
  ptrRadius : Int
  controlPtMax : Nat
deriving DecidableEq, Repr

/-- `_clearOverlay`: clears both overlay layers and the stored control
points. -/
def clearOverlay (s : PanelState) : PanelState :=
  { s with overlay1 := .empty, overlay2 := .empty,
           pointer := { s.pointer with points := [] } }

/-- A control point (image space) converted to the rendered view and offset by
the current render origin, as done in the redraw loops of
`panel.alignment.jsx`. -/
def renderedPoint (props : Props) (ctrlPt : PointI) : PointI :=
  let pt := scalePoint ctrlPt props.render_dims props.image_dims
  { x := pt.x + props.render_dims.x, y := pt.y + props.render_dims.y }

/-- The body of the hit-test loop of `_selectControlPoint`, walking the stored
points with their indices: the loop assigns `pointer.setIndex` for every
stored point within `ptrRadius` of the cursor, so the last hit wins. -/
def hitIndexAux (opts : Options) (props : Props) (pos : PointI) :
    Nat → Option Nat → List PointI → Option Nat
  | _, acc, [] => acc
  | i, acc, p :: rest =>
    let rp := renderedPoint props p
    hitIndexAux opts props pos (i + 1)
      (if inRange pos.x pos.y rp.x rp.y opts.ptrRadius then some i else acc) rest

/-- The index selected by the hit-test loop of `_selectControlPoint`. -/
def hitIndex (opts : Options) (props : Props) (pos : PointI)
    (pts : List PointI) : Option Nat :=
  hitIndexAux opts props pos 0 none pts

/-- The image-space location of a canvas click, as computed by
`_selectControlPoint` (`scaleUp` applied to the offset-corrected position). -/
def actualPoint (props : Props) (pos : PointI) : PointI :=
  let scaleUp := getScale props.image_dims props.render_dims
  { x := scaleUp.x.apply (pos.x - props.render_dims.x),
    y := scaleUp.y.apply (pos.y - props.render_dims.y) }

/-- `_selectControlPoint` (select-mode `down`): ignores clicks outside the
rendered image region; otherwise either marks a proximate stored point as
selected, or reports the `maxControlPoints` error at capacity, or appends the
new image-space point and redraws the overlay markers. -/
def selectControlPoint (opts : Options) (pos : PointI) (s : PanelState) :
    PanelState × Option Msg :=
  let props := s.properties
  let r := props.render_dims
  if pos.x > r.w + r.x ∨ pos.y > r.h + r.y then (s, none)
  else if pos.x < r.x ∨ pos.y < r.y then (s, none)
  else
    match hitIndex opts props pos s.pointer.points with
    | some i => ({ s with pointer := { s.pointer with index := (i : Int) } }, none)
    | none =>
      if s.pointer.points.length ≥ opts.controlPtMax then
        (s, some Msg.maxControlPoints)
      else
        ({ s with
            pointer := { s.pointer with
              points := s.pointer.points ++ [actualPoint props pos] },
            overlay1 := .points
              (s.pointer.points.map (renderedPoint props) ++ [pos]) },
          none)

/-- `_deselectControlPoint` (select-mode `up`/`out`): clears the selected
control-point index. -/
def deselectControlPoint (s : PanelState) : PanelState × Option Msg :=
  ({ s with pointer := { s.pointer with index := -1 } }, none)

/-- `_moveControlPoint` (select-mode `move`): with a live anchor and a
selected index, moves that control point by the displacement-based math of the
source and redraws the markers. -/
def moveControlPoint (s : PanelState) : PanelState × Option Msg :=
  match s.pointer.selected with
  | none => (s, none)
  | some sel =>
    if s.pointer.index < 0 then (s, none)
    else
      match s.pointer.points.get? s.pointer.index.toNat with
      | none => (s, none)
      | some _ =>
        let props := s.properties
        let r := props.render_dims
        if s.pointer.x > r.w + r.x ∨ s.pointer.y > r.h + r.y then (s, none)
        else if s.pointer.x < r.x ∨ s.pointer.y < r.y then (s, none)
        else
          let mx := s.pointer.x + (s.pointer.x - sel.x)
          let my := s.pointer.y + (s.pointer.y - sel.y)
          let scaleUp := getScale props.image_dims props.render_dims
          let newPt : PointI :=
            { x := scaleUp.x.apply (mx - r.x), y := scaleUp.y.apply (my - r.y) }
          let newPts := s.pointer.points.set s.pointer.index.toNat newPt
          ({ s with
              pointer := { s.pointer with
                selected := some { x := s.pointer.x, y := s.pointer.y },
                points := newPts },
              overlay1 := .points (newPts.map (renderedPoint props)) },
            none)

/-- `_startPanImage` (pan-mode `down`): an empty function in the source. -/
def startPanImage (s : PanelState) : PanelState × Option Msg := (s, none)

/-- `_endPanImage` (pan-mode `up`/`out`): an empty function in the source. -/
def endPanImage (s : PanelState) : PanelState × Option Msg := (s, none)

/-- `_panImage` (pan-mode `move`): with a live anchor, translates
`render_dims.{x,y}` by the cursor displacement since the anchor, re-anchors at
the cursor, and redraws the control points in the shifted render space. -/
def panImage (s : PanelState) : PanelState × Option Msg :=
  match s.pointer.selected with
  | none => (s, none)
  | some sel =>
    let props := s.properties
    let vx := props.render_dims.x + s.pointer.x - sel.x
    let vy := props.render_dims.y + s.pointer.y - sel.y
    let viewDims : Rect := { x := vx, y := vy, w := props.render_dims.w, h := props.render_dims.h }
    let shifted : Props := { props with render_dims := viewDims }
    ({ s with
        pointer := { s.pointer with selected := some { x := s.pointer.x, y := s.pointer.y } },
        properties := shifted,
        overlay1 := .points (s.pointer.points.map (renderedPoint shifted)) },
      none)

/-- `_startCropBox` (crop-mode `down`): if the image-space cursor lands inside
the existing box, live-switches the bundle to the move-box variant; otherwise
restarts the box at zero size at that point. -/
def startCropBox (s : PanelState) : PanelState × Option Msg :=
  let props := s.properties
  let sb := s.pointer.selectBox
  let scaledPt := scalePoint { x := s.pointer.x, y := s.pointer.y }
    props.image_dims props.render_dims
  let inBox : Bool :=
    sb.w > 0 && sb.h > 0 &&
    scaledPt.x ≥ sb.x && scaledPt.x ≤ sb.x + sb.w &&
    scaledPt.y ≥ sb.y && scaledPt.y ≤ sb.y + sb.h
  if inBox then
    ({ s with methods := cropMoveBundle }, none)
  else
    ({ s with
        pointer := { s.pointer with
          selectBox := { x := scaledPt.x, y := scaledPt.y, w := 0, h := 0 } },
        overlay1 := .box 0 0 0 0 },
      none)

/-- `_selectCropBox` (crop-mode `move`, new-box variant): with a live anchor,
stores the normalized image-space box spanned by the anchor and the cursor and
redraws the bounding rectangle. -/
def selectCropBox (s : PanelState) : PanelState × Option Msg :=
  match s.pointer.selected with
  | none => (s, none)
  | some sel =>
    let props := s.properties
    let scale := getScale props.image_dims props.render_dims
    let bx := min s.pointer.x sel.x
    let by2 := min s.pointer.y sel.y
    let bw := props.render_dims.x + s.pointer.x - sel.x
    let bh := props.render_dims.y + s.pointer.y - sel.y
    ({ s with
        pointer := { s.pointer with
          selectBox :=
            { x := scale.x.apply bx, y := scale.y.apply by2,
              w := jsAbs (scale.x.apply bw), h := jsAbs (scale.y.apply bh) } },
        overlay1 := .box sel.x sel.y bw bh },
      none)

/-- `_moveCropBox` (crop-mode `move`, move-box variant): with a live anchor,
translates the box by the cursor displacement (converting through render
space) and redraws it. -/
def moveCropBox (s : PanelState) : PanelState × Option Msg :=
  match s.pointer.selected with
  | none => (s, none)
  | some sel =>
    let props := s.properties
    let sb := s.pointer.selectBox
    let scaleDown := getScale props.render_dims props.image_dims
    let mx := scaleDown.x.apply sb.x + s.pointer.x - sel.x
    let my := scaleDown.y.apply sb.y + s.pointer.y - sel.y
    let mw := scaleDown.x.apply sb.w
    let mh := scaleDown.y.apply sb.h
    let scaleUp := getScale props.image_dims props.render_dims
    ({ s with
        pointer := { s.pointer with
          selected := some { x := s.pointer.x, y := s.pointer.y },
          selectBox :=
            { x := scaleUp.x.apply mx, y := scaleUp.y.apply my, w := sb.w, h := sb.h } },
        overlay1 := .box mx my mw mh },
      none)

/-- `_endCropBox` (crop-mode `up`/`out`): with no loaded image or a degenerate
box, clears the overlay and resets the box; otherwise commits the box clamped
by the piecewise arithmetic of the source and redraws it; in both cases the
new-box bundle is restored. -/
def endCropBox (s : PanelState) : PanelState × Option Msg :=
  let sb := s.pointer.selectBox
  let props := s.properties
  if s.image = none ∨ s.status ≠ Status.loaded ∨ sb.w = 0 ∨ sb.h = 0 then
    let s1 := clearOverlay s
    ({ s1 with
        pointer := { s1.pointer with selectBox := { x := 0, y := 0, w := 0, h := 0 } },
        methods := cropSelectBundle },
      none)
  else
    let cx := max (min sb.x props.image_dims.w) 0
    let cy := max (min sb.y props.image_dims.h) 0
    let cw :=
      if sb.x + sb.w > props.image_dims.w then props.image_dims.w - jsAbs sb.x
      else if sb.x < 0 then sb.w - jsAbs sb.x
      else sb.w
    let ch :=
      if sb.y + sb.h > props.image_dims.h then props.image_dims.h - jsAbs sb.y
      else if sb.y < 0 then sb.h - jsAbs sb.y
      else sb.h
    let scale := getScale props.render_dims props.image_dims
    ({ s with
        pointer := { s.pointer with selectBox := { x := cx, y := cy, w := cw, h := ch } },
        overlay1 := .box (scale.x.apply cx) (scale.y.apply cy)
          (jsAbs (scale.x.apply cw)) (jsAbs (scale.y.apply ch)),
        methods := cropSelectBundle },
      none)

/-- The exact intersection of a box with the image bounds
`[0, w] × [0, h]`, stated from the specification's words (the clamp contract
of the crop engine); compared against `endCropBox`. -/
def rectIntersection (b : Rect) (w h : Int) : Rect :=
  { x := max b.x 0, y := max b.y 0,
    w := min (b.x + b.w) w - max b.x 0,
    h := min (b.y + b.h) h - max b.y 0 }

/-- The properties delivered by the external image loader on success
(spec §6): the decoded raster's dimensions and the fixed canvas size. -/
structure LoadProps where
  source_dims : Dims
  base_dims : Dims
deriving DecidableEq, Repr

/-- The raster and dimensions returned by the external alignment solver on
success. -/
structure AlignData where
  data : Raster
  width : Int
  height : Int
deriving DecidableEq, Repr

/-- The success path of `_loadImage`'s callback: commits the loader
properties, stores the raster as both `source` and `image`, fits the render
dimensions to the canvas and marks the panel loaded.  `image_dims` becomes the
decoded raster's pixel grid (the spec's image space). -/
def loadImageSuccess (data : Raster) (p : LoadProps) (s : PanelState) : PanelState :=
  let dims := scaleToFit p.source_dims.w p.source_dims.h p.base_dims.w p.base_dims.h
  { s with
      status := Status.loaded,
      source := some data,
      image := some data,
      properties :=
        { image_dims := { x := 0, y := 0, w := p.source_dims.w, h := p.source_dims.h },
          render_dims := { x := 0, y := 0, w := dims.w, h := dims.h },
          base_dims := { x := 0, y := 0, w := p.base_dims.w, h := p.base_dims.h },
          source_dims := { x := 0, y := 0, w := p.source_dims.w, h := p.source_dims.h } } }

/-- The error path of `_loadImage`'s callback: the panel reverts to `empty`
and the loader error is surfaced; nothing else changes. -/
def loadImageError (s : PanelState) : PanelState × Option Msg :=
  ({ s with status := Status.empty }, some Msg.loadFailed)

/-- `_resetImage`: restores `image` from `source` and resets the select box;
with no source data it stops there, otherwise it re-renders, restores
`image_dims`/`render_dims` from the source dimensions, reports success, marks
the panel loaded and redraws the control points (scaled against the stale
pre-update `image_dims`, as the source closure does). -/
def resetImage (s : PanelState) : PanelState × Option Msg :=
  let s1 := { s with
      image := s.source,
      pointer := { s.pointer with selectBox := { x := 0, y := 0, w := 0, h := 0 } } }
  match s.source with
  | none => (s1, none)
  | some _ =>
    let viewDims := scaleToFit s.properties.source_dims.w s.properties.source_dims.h
      s.properties.base_dims.w s.properties.base_dims.h
    let vRect : Rect := { x := 0, y := 0, w := viewDims.w, h := viewDims.h }
    ({ s1 with
        status := Status.loaded,
        properties := { s1.properties with
          image_dims :=
            { x := 0, y := 0, w := s.properties.source_dims.w, h := s.properties.source_dims.h },
          render_dims := vRect },
        overlay1 := .points
          (s.pointer.points.map (fun p => scalePoint p vRect s.properties.image_dims)) },
      some Msg.resetSuccess)

/-- `_removeImage`: clears the overlays and stored points, resets the panel
metadata and rasters, clears the canvases and sets the status to `empty`. -/
def removeImage (s : PanelState) : PanelState :=
  let s1 := clearOverlay s
  { s1 with
      image := none,
      source := none,
      status := Status.empty,
      pointer := { x := 0, y := 0, selected := none, points := [],
                   selectBox := { x := 0, y := 0, w := 0, h := 0 },
                   index := -1, magnify := false } }

/-- `_syncImages` (the `saveState` menu command): stores the current raster as
the new source and copies the image dimensions into `source_dims`. -/
def syncImages (s : PanelState) : PanelState × Option Msg :=
  ({ s with
      source := s.image,
      properties := { s.properties with
        source_dims := { x := 0, y := 0,
                         w := s.properties.image_dims.w, h := s.properties.image_dims.h } } },
    some Msg.syncSuccess)

/-- `_applyCropBox` (the crop tool's apply command): sets the status to
`loading` first; a select box with zero width and zero height then returns
with no further change (leaving the status at `loading`); otherwise the image
is replaced by the cropped raster, the overlays and stored points are cleared,
dimensions are refit and the box is reset. -/
def applyCropBox (cropped : Raster) (s : PanelState) : PanelState × Option Msg :=
  let s0 := { s with status := Status.loading }
  let sb := s.pointer.selectBox
  if sb.w = 0 ∧ sb.h = 0 then (s0, none)
  else
    let scaled := scaleToFit sb.w sb.h s.properties.base_dims.w s.properties.base_dims.h
    let s1 := clearOverlay s0
    ({ s1 with
        status := Status.loaded,
        image := some cropped,
        properties := { s1.properties with
          image_dims := { x := 0, y := 0, w := sb.w, h := sb.h },
          render_dims := { x := 0, y := 0, w := scaled.w, h := scaled.h } },
        pointer := { s1.pointer with selectBox := { x := 0, y := 0, w := 0, h := 0 } } },
      none)

/-- `_alignImage` given the solver's result: sets the status to `loading`
first; on a solver-reported error only the message is surfaced (the status is
left at `loading` and the raster untouched); on success the warped raster is
rendered, `render_dims` refit and the panel marked loaded. -/
def alignStep (result : Except Msg AlignData) (s : PanelState) : PanelState × Option Msg :=
  let s0 := { s with status := Status.loading }
  match result with
  | .error e => (s0, some e)
  | .ok d =>
    let scaled := scaleToFit d.width d.height s.properties.base_dims.w s.properties.base_dims.h
    ({ s0 with
        status := Status.loaded,
        image := some d.data,
        properties := { s0.properties with
          render_dims := { x := 0, y := 0, w := scaled.w, h := scaled.h } } },
      none)

/-- The mode effect of `panel.alignment.jsx` (the `useEffect` on `iat.mode`):
installs the mode's handler bundle; entering crop mode on a panel holding an
image first runs `_resetImage`. -/
def modeChange (m : Mode) (s : PanelState) : PanelState × Option Msg :=
  match m with
  | .pan => ({ s with mode := .pan, methods := panBundle }, none)
  | .select => ({ s with mode := .select, methods := selectBundle }, none)
  | .crop =>
    let sm : PanelState × Option Msg :=
      if s.image ≠ none then resetImage s else (s, none)
    ({ sm.1 with mode := .crop, methods := cropSelectBundle }, sm.2)

/-- Dispatch of one installed handler on the panel state.  `pos` is the canvas
position delivered with the event (the result of `getPos`); the handlers other
than `_selectControlPoint` read the cursor from the pointer state, which the
controller updates before dispatch. -/
def runHandler (opts : Options) (h : Handler) (pos : PointI) (s : PanelState) :
    PanelState × Option Msg :=
  match h with
  | .startPanImage => startPanImage s
  | .endPanImage => endPanImage s
  | .panImage => panImage s
  | .selectControlPoint => selectControlPoint opts pos s
  | .deselectControlPoint => deselectControlPoint s
  | .moveControlPoint => moveControlPoint s
  | .startCropBox => startCropBox s
  | .endCropBox => endCropBox s
  | .selectCropBox => selectCropBox s
  | .moveCropBox => moveCropBox s

/-- The panel operations: image lifecycle commands, pointer events (dispatched
through the installed bundle), mode changes and the user tools. -/
inductive Op where
  | loadRequest
  | loadStart
  | loadSuccess (data : Raster) (p : LoadProps)
  | loadError
  | mouseDown (pos : PointI)
  | mouseMove (pos : PointI)
  | mouseUp
  | mouseOut
  | modeSet (m : Mode)
  | applyCrop (cropped : Raster)
  | alignRun (result : Except Msg AlignData)
  | resetImg
  | removeImg
  | syncImg
  | downloadStart
  | downloadEnd
  | fitVw
  | zoomVw (zn zd : Int)

/-- `_fitView` body on the properties: refit `render_dims` to the canvas with
the pan offset reset to zero. -/
def fitView (s : PanelState) : PanelState :=
  let d := scaleToFit s.properties.image_dims.w s.properties.image_dims.h
    s.properties.base_dims.w s.properties.base_dims.h
  let vRect : Rect := { x := 0, y := 0, w := d.w, h := d.h }
  { s with
      properties := { s.properties with render_dims := vRect },
      overlay1 := .points
        (s.pointer.points.map (fun p => scalePoint p vRect s.properties.image_dims)) }

/-- `_zoomView` body on the properties: scale `render_dims` by the zoom factor
`zn / zd` and redraw the offset control points. -/
def zoomView (zn zd : Int) (s : PanelState) : PanelState :=
  let r := s.properties.render_dims
  let vRect : Rect :=
    { x := jsRoundFrac (r.x * zn) zd, y := jsRoundFrac (r.y * zn) zd,
      w := jsRoundFrac (r.w * zn) zd, h := jsRoundFrac (r.h * zn) zd }
  { s with
      properties := { s.properties with render_dims := vRect },
      overlay1 := .points
        (s.pointer.points.map (fun p =>
          let pt := scalePoint p vRect s.properties.image_dims
          { x := vRect.x + pt.x, y := vRect.y + pt.y })) }

/-- One step of the panel semantics.  The pointer-event cases model the
controller wrapper (a module outside the provided sources; modelled from the
spec's pointer model): it records the cursor position, anchors `selected` on
`down` and clears it after `up`/`out`, and dispatches the event to the
installed bundle.  The crop tool's apply command is only reachable under the
guard rendered in the source (`mode = crop`, an image present, status
`loaded`); the align command validates its inputs before the solver runs
(modelled from the spec: an align attempt with no image loaded is an
`emptyCanvas` validation error), and the menu tools (`sync`, `saveAs`, `fit`,
`zoom`) require a loaded panel. -/
def step (opts : Options) (s : PanelState) : Op → PanelState
  | .loadRequest => { s with status := Status.load }
  | .loadStart => { s with status := Status.loading }
  | .loadSuccess data p => loadImageSuccess data p s
  | .loadError => (loadImageError s).1
  | .mouseDown pos =>
    let s1 := { s with pointer := { s.pointer with x := pos.x, y := pos.y, selected := some pos } }
    (runHandler opts s1.methods.down pos s1).1
  | .mouseMove pos =>
    let s1 := { s with pointer := { s.pointer with x := pos.x, y := pos.y } }
    (runHandler opts s1.methods.move pos s1).1
  | .mouseUp =>
    let s1 := (runHandler opts s.methods.up { x := s.pointer.x, y := s.pointer.y } s).1
    { s1 with pointer := { s1.pointer with selected := none } }
  | .mouseOut =>
    let s1 := (runHandler opts s.methods.out { x := s.pointer.x, y := s.pointer.y } s).1
    { s1 with pointer := { s1.pointer with selected := none } }
  | .modeSet m => (modeChange m s).1
  | .applyCrop cropped =>
    if s.mode = Mode.crop ∧ s.image ≠ none ∧ s.status = Status.loaded then
      (applyCropBox cropped s).1
    else s
  | .alignRun result =>
    if s.image = none then (alignStep (.error Msg.emptyCanvas) s).1
    else (alignStep result s).1
  | .resetImg => (resetImage s).1
  | .removeImg => removeImage s
  | .syncImg => if s.status = Status.loaded then (syncImages s).1 else s
  | .downloadStart => if s.status = Status.loaded then { s with status := Status.downloading } else s
  | .downloadEnd => if s.status = Status.downloading then { s with status := Status.loaded } else s
  | .fitVw => if s.status = Status.loaded then fitView s else s
  | .zoomVw zn zd => if s.status = Status.loaded then zoomView zn zd s else s

/-- A freshly created panel: empty status, no rasters, zeroed pointer, and the
bundle of the toolkit's initial mode (pan) installed by the mount run of the
mode effect. -/
def initialPanel : PanelState :=
  { status := Status.empty,
    image := none,
    source := none,
    properties :=
      { image_dims := { x := 0, y := 0, w := 0, h := 0 },
        render_dims := { x := 0, y := 0, w := 0, h := 0 },
        base_dims := { x := 0, y := 0, w := 0, h := 0 },
        source_dims := { x := 0, y := 0, w := 0, h := 0 } },
    pointer := { x := 0, y := 0, selected := none, points := [],
                 selectBox := { x := 0, y := 0, w := 0, h := 0 },
                 index := -1, magnify := false },
    methods := panBundle,
    overlay1 := .empty,
    overlay2 := .empty,
    mode := Mode.pan }

/-- Panel states reachable from a fresh panel by the operations. -/
inductive Reachable (opts : Options) : PanelState → Prop
  | init : Reachable opts initialPanel
  | next (s : PanelState) (op : Op) : Reachable opts s → Reachable opts (step opts s op)

/-- The handler bundles that the source ever assigns. -/
def installedBundles : List Methods :=
  [panBundle, selectBundle, cropSelectBundle, cropMoveBundle]

/-- A bundle drawn entirely from a single mode's behavior set. -/
def bundleUniform (b : Methods) : Prop :=
  handlerMode b.up = handlerMode b.down ∧
  handlerMode b.move = handlerMode b.down ∧
  handlerMode b.out = handlerMode b.down

/-- The inductive invariant of the step semantics: a panel with no image is in
a pre-load status, a panel holding an image also holds a source raster, and
the installed bundle is one the source assigns. -/
def StateInv (s : PanelState) : Prop :=
  (s.image = none → s.status = Status.empty ∨ s.status = Status.load ∨ s.status = Status.loading) ∧
  (s.image ≠ none → s.source ≠ none) ∧
  s.methods ∈ installedBundles

/-! ### Concrete fixtures used by the witnesses and counterexamples -/

/-- Default toolkit options for the concrete scenarios. -/
def opts0 : Options := { ptrRadius := 20, controlPtMax := 4 }

/-- Loader result for a 4000×3000 image decoded into an 800×600 canvas. -/
def props4k : LoadProps :=
  { source_dims := { w := 4000, h := 3000 }, base_dims := { w := 800, h := 600 } }

/-- A fresh panel after successfully loading the 4000×3000 image. -/
def panel4k : PanelState := loadImageSuccess 1 props4k initialPanel

/-- A loaded panel showing a 150×300 image at scale one. -/
def panel150 : PanelState :=
  { initialPanel with
      status := Status.loaded, image := some 7, source := some 7,
      properties := { initialPanel.properties with
        image_dims := { x := 0, y := 0, w := 150, h := 300 },
        render_dims := { x := 0, y := 0, w := 150, h := 300 },
        base_dims := { x := 0, y := 0, w := 150, h := 300 },
        source_dims := { x := 0, y := 0, w := 150, h := 300 } } }

/-- `panel150` with a drag box extending past both vertical image edges. -/
def panelBoxWide : PanelState :=
  { panel150 with pointer := { panel150.pointer with
      selectBox := { x := -50, y := 10, w := 300, h := 100 } } }

/-- `panel150` with the spec's example box `{x:-50, y:10, w:200, h:100}`. -/
def panelBoxExample : PanelState :=
  { panel150 with pointer := { panel150.pointer with
      selectBox := { x := -50, y := 10, w := 200, h := 100 } } }

/-- `panel150` with a degenerate box of zero width but non-zero height. -/
def panelBoxZeroW : PanelState :=
  { panel150 with pointer := { panel150.pointer with
      selectBox := { x := 5, y := 5, w := 0, h := 50 } } }

/-- A loaded 100×100 panel holding `controlPtMax` control points. -/
def panelAtCap : PanelState :=
  { initialPanel with
      status := Status.loaded, image := some 3, source := some 3,
      properties := { initialPanel.properties with
        image_dims := { x := 0, y := 0, w := 100, h := 100 },
        render_dims := { x := 0, y := 0, w := 100, h := 100 },
        base_dims := { x := 0, y := 0, w := 100, h := 100 },
        source_dims := { x := 0, y := 0, w := 100, h := 100 } },
      pointer := { initialPanel.pointer with
        points := [{ x := 0, y := 0 }, { x := 10, y := 10 },
                   { x := 20, y := 20 }, { x := 30, y := 30 }] } }

/-- `panel150` with stale markup on both overlay layers. -/
def panelMarked : PanelState :=
  { panel150 with
      overlay1 := OverlayState.box 1 2 3 4,
      overlay2 := OverlayState.points [{ x := 5, y := 6 }] }

/-- `panel150` mid-drag: anchor at (3,4), cursor at (10,20). -/
def panelDragging : PanelState :=
  { panel150 with pointer := { panel150.pointer with
      x := 10, y := 20, selected := some { x := 3, y := 4 },
      points := [{ x := 50, y := 60 }] } }

/-! ### Helper lemmas -/

/-- The hit-test loop leaves its accumulator untouched when no stored point is
within `ptrRadius` of the cursor. -/
theorem hitIndexAux_eq_acc (opts : Options) (props : Props) (pos : PointI)
    (pts : List PointI) (i : Nat) (acc : Option Nat)
    (h : ∀ p ∈ pts, inRange pos.x pos.y (renderedPoint props p).x
      (renderedPoint props p).y opts.ptrRadius = false) :
    hitIndexAux opts props pos i acc pts = acc := by
  induction pts generalizing i acc with
  | nil => rfl
  | cons p rest ih =>
    have hp := h p (List.mem_cons_self p rest)
    simp only [hitIndexAux, hp, Bool.false_eq_true, if_false]
    exact ih (i + 1) acc (fun q hq => h q (List.mem_cons_of_mem p hq))

/-- `hitIndex` finds nothing when no stored point is near the cursor. -/
theorem hitIndex_eq_none (opts : Options) (props : Props) (pos : PointI)
    (pts : List PointI)
    (h : ∀ p ∈ pts, inRange pos.x pos.y (renderedPoint props p).x
      (renderedPoint props p).y opts.ptrRadius = false) :
    hitIndex opts props pos pts = none :=
  hitIndexAux_eq_acc opts props pos pts 0 none h

/-- Every pointer-event handler leaves the raster buffers and the lifecycle
status untouched, and only installs bundles that the source assigns. -/
theorem runHandler_fields (opts : Options) (h : Handler) (pos : PointI)
    (s : PanelState) :
    (runHandler opts h pos s).1.image = s.image ∧
    (runHandler opts h pos s).1.status = s.status ∧
    (runHandler opts h pos s).1.source = s.source ∧
    ((runHandler opts h pos s).1.methods = s.methods ∨
     (runHandler opts h pos s).1.methods = cropSelectBundle ∨
     (runHandler opts h pos s).1.methods = cropMoveBundle) := by
  cases h <;>
    simp only [runHandler, startPanImage, endPanImage, panImage, selectControlPoint,
      deselectControlPoint, moveControlPoint, startCropBox, endCropBox, selectCropBox,
      moveCropBox, clearOverlay] <;>
    (repeat' split) <;> simp

/-- Membership facts for the assigned bundles. -/
theorem panBundle_mem : panBundle ∈ installedBundles := by decide

/-- The select bundle is an assigned bundle. -/
theorem selectBundle_mem : selectBundle ∈ installedBundles := by decide

/-- The crop (new-box) bundle is an assigned bundle. -/
theorem cropSelectBundle_mem : cropSelectBundle ∈ installedBundles := by decide

/-- The crop (move-box) bundle is an assigned bundle. -/
theorem cropMoveBundle_mem : cropMoveBundle ∈ installedBundles := by decide

/-- Every panel operation preserves the inductive invariant. -/
theorem stateInv_step (opts : Options) (s : PanelState) (op : Op)
    (h : StateInv s) : StateInv (step opts s op) := by
  obtain ⟨h1, h2, h3⟩ := h
  cases op with
  | loadRequest => exact ⟨fun _ => Or.inr (Or.inl rfl), h2, h3⟩
  | loadStart => exact ⟨fun _ => Or.inr (Or.inr rfl), h2, h3⟩
  | loadSuccess data p =>
    refine ⟨fun hx => ?_, fun _ => ?_, h3⟩
    · exact absurd hx (by simp [step, loadImageSuccess])
    · simp [step, loadImageSuccess]
  | loadError => exact ⟨fun _ => Or.inl rfl, h2, h3⟩
  | mouseDown pos =>
    obtain ⟨hi, hs, hsrc, hm⟩ := runHandler_fields opts
      { s with pointer := { s.pointer with x := pos.x, y := pos.y, selected := some pos } }.methods.down
      pos { s with pointer := { s.pointer with x := pos.x, y := pos.y, selected := some pos } }
    refine ⟨fun hx => ?_, fun hx => ?_, ?_⟩
    · rw [step, hs]; exact h1 (by rw [step, hi] at hx; exact hx)
    · rw [step, hsrc]; exact h2 (by rw [step, hi] at hx; exact hx)
    · rw [step]
      rcases hm with hm | hm | hm
      · rw [hm]; exact h3
      · rw [hm]; exact cropSelectBundle_mem
      · rw [hm]; exact cropMoveBundle_mem
  | mouseMove pos =>
    obtain ⟨hi, hs, hsrc, hm⟩ := runHandler_fields opts
      { s with pointer := { s.pointer with x := pos.x, y := pos.y } }.methods.move
      pos { s with pointer := { s.pointer with x := pos.x, y := pos.y } }
    refine ⟨fun hx => ?_, fun hx => ?_, ?_⟩
    · rw [step, hs]; exact h1 (by rw [step, hi] at hx; exact hx)
    · rw [step, hsrc]; exact h2 (by rw [step, hi] at hx; exact hx)
    · rw [step]
      rcases hm with hm | hm | hm
      · rw [hm]; exact h3
      · rw [hm]; exact cropSelectBundle_mem
      · rw [hm]; exact cropMoveBundle_mem
  | mouseUp =>
    obtain ⟨hi, hs, hsrc, hm⟩ := runHandler_fields opts s.methods.up
      { x := s.pointer.x, y := s.pointer.y } s
    refine ⟨fun hx => ?_, fun hx => ?_, ?_⟩
    · rw [step, hs]; exact h1 (by rw [step, hi] at hx; exact hx)
    · rw [step, hsrc]; exact h2 (by rw [step, hi] at hx; exact hx)
    · rw [step]
      rcases hm with hm | hm | hm
      · rw [hm]; exact h3
      · rw [hm]; exact cropSelectBundle_mem
      · rw [hm]; exact cropMoveBundle_mem
  | mouseOut =>
    obtain ⟨hi, hs, hsrc, hm⟩ := runHandler_fields opts s.methods.out
      { x := s.pointer.x, y := s.pointer.y } s
    refine ⟨fun hx => ?_, fun hx => ?_, ?_⟩
    · rw [step, hs]; exact h1 (by rw [step, hi] at hx; exact hx)
    · rw [step, hsrc]; exact h2 (by rw [step, hi] at hx; exact hx)
    · rw [step]
      rcases hm with hm | hm | hm
      · rw [hm]; exact h3
      · rw [hm]; exact cropSelectBundle_mem
      · rw [hm]; exact cropMoveBundle_mem
  | modeSet m =>
    cases m with
    | pan => exact ⟨h1, h2, panBundle_mem⟩
    | select => exact ⟨h1, h2, selectBundle_mem⟩
    | crop =>
      simp only [step, modeChange]
      by_cases him : s.image = none
      · rw [if_neg (fun hc => hc him)]
        exact ⟨fun _ => h1 him, h2, cropSelectBundle_mem⟩
      · have hsrc := h2 him
        rcases hsrcv : s.source with _ | r
        · exact absurd hsrcv hsrc
        · rw [if_pos him]
          simp only [resetImage, hsrcv]
          refine ⟨fun hx => absurd hx (by simp), fun _ => by simp, cropSelectBundle_mem⟩
  | applyCrop cropped =>
    simp only [step]
    by_cases hg : s.mode = Mode.crop ∧ s.image ≠ none ∧ s.status = Status.loaded
    · rw [if_pos hg]
      simp only [applyCropBox]
      by_cases hz : s.pointer.selectBox.w = 0 ∧ s.pointer.selectBox.h = 0
      · rw [if_pos hz]
        exact ⟨fun _ => Or.inr (Or.inr rfl), h2, h3⟩
      · rw [if_neg hz]
        refine ⟨fun hx => absurd hx (by simp [clearOverlay]), fun _ => ?_, h3⟩
        simpa [clearOverlay] using h2 hg.2.1
    · rw [if_neg hg]
      exact ⟨h1, h2, h3⟩
  | alignRun result =>
    by_cases him : s.image = none
    · simp only [step, him, if_true, alignStep]
      exact ⟨fun _ => Or.inr (Or.inr rfl), fun hx => absurd rfl hx, h3⟩
    · simp only [step, him, if_false]
      cases result with
      | error e => exact ⟨fun _ => Or.inr (Or.inr rfl), h2, h3⟩
      | ok d =>
        refine ⟨fun hx => absurd hx (by simp [alignStep]), fun _ => ?_, h3⟩
        simpa [alignStep] using h2 him
  | resetImg =>
    rcases hsrcv : s.source with _ | r
    · simp only [step, resetImage, hsrcv]
      refine ⟨fun _ => ?_, fun hx => absurd rfl hx, h3⟩
      by_cases him : s.image = none
      · exact h1 him
      · exact absurd hsrcv (h2 him)
    · simp only [step, resetImage, hsrcv]
      exact ⟨fun hx => absurd hx (by simp), fun _ => by simp, h3⟩
  | removeImg =>
    exact ⟨fun _ => Or.inl rfl, fun hx => absurd rfl hx, h3⟩
  | syncImg =>
    by_cases hst : s.status = Status.loaded
    · simp only [step, hst, if_true, syncImages]
      exact ⟨fun hx => absurd (h1 hx) (by rw [hst]; rintro (h | h | h) <;> exact Status.noConfusion h),
        fun hx => hx, h3⟩
    · simp only [step, hst, if_false]
      exact ⟨h1, h2, h3⟩
  | downloadStart =>
    by_cases hst : s.status = Status.loaded
    · simp only [step, hst, if_true]
      exact ⟨fun hx => absurd (h1 hx) (by rw [hst]; rintro (h | h | h) <;> exact Status.noConfusion h),
        h2, h3⟩
    · simp only [step, hst, if_false]
      exact ⟨h1, h2, h3⟩
  | downloadEnd =>
    by_cases hst : s.status = Status.downloading
    · simp only [step, hst, if_true]
      exact ⟨fun hx => absurd (h1 hx) (by rw [hst]; rintro (h | h | h) <;> exact Status.noConfusion h),
        h2, h3⟩
    · simp only [step, hst, if_false]
      exact ⟨h1, h2, h3⟩
  | fitVw =>
    by_cases hst : s.status = Status.loaded
    · simp only [step, hst, if_true, fitView]
      exact ⟨fun hx => absurd (h1 hx) (by rw [hst]; rintro (h | h | h) <;> exact Status.noConfusion h),
        h2, h3⟩
    · simp only [step, hst, if_false]
      exact ⟨h1, h2, h3⟩
  | zoomVw zn zd =>
    by_cases hst : s.status = Status.loaded
    · simp only [step, hst, if_true, zoomView]
      exact ⟨fun hx => absurd (h1 hx) (by rw [hst]; rintro (h | h | h) <;> exact Status.noConfusion h),
        h2, h3⟩
    · simp only [step, hst, if_false]
      exact ⟨h1, h2, h3⟩

/-- Every reachable panel state satisfies the inductive invariant. -/
theorem reachable_inv (opts : Options) (s : PanelState)
    (h : Reachable opts s) : StateInv s := by
  induction h with
  | init => exact ⟨fun _ => Or.inl rfl, fun hx => absurd rfl hx, panBundle_mem⟩
  | next s op _ ih => exact stateInv_step opts s op ih

/-! ### Claim theorems -/

/-- C3: loading a 4000×3000 image into an 800×600 canvas yields
`render_dims = {0,0,800,600}`, and a select-mode pointer-down at canvas
position (400,300) (zero render offset, no existing control point) appends the
image-space control point (2000,1500). -/
theorem c3_load_and_place :
    panel4k.properties.render_dims = { x := 0, y := 0, w := 800, h := 600 } ∧
    (selectControlPoint opts0 { x := 400, y := 300 } panel4k).1.pointer.points
      = [{ x := 2000, y := 1500 }] := by decide

/-- C4 (code evaluation at the failing input): when the align command receives
a solver error on a loaded panel, the error is surfaced and the raster is
untouched, but the status is left at `loading`, not restored to `loaded` as
the claim states. -/
theorem c4_align_error_evaluation :
    (alignStep (Except.error Msg.collinearPts) panel150).2 = some Msg.collinearPts ∧
    (alignStep (Except.error Msg.collinearPts) panel150).1.image = panel150.image ∧
    (alignStep (Except.error Msg.collinearPts) panel150).1.status = Status.loading ∧
    panel150.status = Status.loaded ∧
    (alignStep (Except.error Msg.collinearPts) panel150).1.status ≠ panel150.status := by
  decide

/-- C5 (code evaluation at the failing input): applying crop with an empty
select box emits no error and leaves the image, `image_dims` and `render_dims`
unchanged, but sets the status to `loading` instead of leaving it unchanged;
moreover a degenerate box of zero width but non-zero height is not treated as
empty and the crop proceeds, replacing the image. -/
theorem c5_empty_crop_evaluation :
    (applyCropBox 9 panel150).2 = none ∧
    (applyCropBox 9 panel150).1.image = panel150.image ∧
    (applyCropBox 9 panel150).1.properties = panel150.properties ∧
    (applyCropBox 9 panel150).1.status = Status.loading ∧
    panel150.status = Status.loaded ∧
    (applyCropBox 9 panelBoxZeroW).1.image = some 9 := by decide

/-- C6: in pan mode, a mouse-move with a selected anchor translates
`render_dims.{x,y}` by exactly the cursor displacement since the anchor,
leaves `render_dims.{w,h}`, `image_dims` and the control-point list unchanged,
and the pan-mode `down`/`up`/`out` handlers perform no state change. -/
theorem c6_pan_mode (s : PanelState) (a : PointI)
    (h : s.pointer.selected = some a) :
    ((panImage s).1.properties.render_dims.x
        = s.properties.render_dims.x + (s.pointer.x - a.x) ∧
     (panImage s).1.properties.render_dims.y
        = s.properties.render_dims.y + (s.pointer.y - a.y) ∧
     (panImage s).1.properties.render_dims.w = s.properties.render_dims.w ∧
     (panImage s).1.properties.render_dims.h = s.properties.render_dims.h ∧
     (panImage s).1.properties.image_dims = s.properties.image_dims ∧
     (panImage s).1.pointer.points = s.pointer.points) ∧
    startPanImage s = (s, none) ∧ endPanImage s = (s, none) := by
  simp only [panImage, h, startPanImage, endPanImage]
  repeat' apply And.intro
  all_goals first
    | trivial
    | (dsimp; omega)

/-- C6 witness: the pan-move theorem instantiated on a concrete mid-drag
panel. -/
theorem c6_witness :
    ((panImage panelDragging).1.properties.render_dims.x
        = panelDragging.properties.render_dims.x + (panelDragging.pointer.x - 3) ∧
     (panImage panelDragging).1.properties.render_dims.y
        = panelDragging.properties.render_dims.y + (panelDragging.pointer.y - 4) ∧
     (panImage panelDragging).1.properties.render_dims.w
        = panelDragging.properties.render_dims.w ∧
     (panImage panelDragging).1.properties.render_dims.h
        = panelDragging.properties.render_dims.h ∧
     (panImage panelDragging).1.properties.image_dims
        = panelDragging.properties.image_dims ∧
     (panImage panelDragging).1.pointer.points = panelDragging.pointer.points) ∧
    startPanImage panelDragging = (panelDragging, none) ∧
    endPanImage panelDragging = (panelDragging, none) :=
  c6_pan_mode panelDragging { x := 3, y := 4 } rfl

/-- C7 counterexample: a mode change into select mode leaves both overlay
layers untouched (here holding stale markup), so the claim that every mode
change clears the overlay layers is false. -/
theorem c7_counterexample :
    (modeChange Mode.select panelMarked).1.overlay1 = panelMarked.overlay1 ∧
    (modeChange Mode.select panelMarked).1.overlay2 = panelMarked.overlay2 ∧
    panelMarked.overlay1 ≠ OverlayState.empty ∧
    panelMarked.overlay2 ≠ OverlayState.empty := by decide

/-- C7 (amended): mode changes into pan or select mode leave the overlay
layers unchanged; a mode change into crop mode on a panel holding an image
resets the image from the source raster, resets the select box to empty, and
installs the crop handler bundle. -/
theorem c7_crop_entry_amended (s : PanelState) (r : Raster)
    (h : s.image = some r) :
    ((modeChange Mode.crop s).1.image = s.source ∧
     (modeChange Mode.crop s).1.pointer.selectBox = { x := 0, y := 0, w := 0, h := 0 } ∧
     (modeChange Mode.crop s).1.methods = cropSelectBundle) ∧
    ((modeChange Mode.pan s).1.overlay1 = s.overlay1 ∧
     (modeChange Mode.pan s).1.overlay2 = s.overlay2 ∧
     (modeChange Mode.select s).1.overlay1 = s.overlay1 ∧
     (modeChange Mode.select s).1.overlay2 = s.overlay2) := by
  constructor
  · have hne : s.image ≠ none := by rw [h]; exact fun hc => Option.noConfusion hc
    simp only [modeChange]
    rw [if_pos hne]
    rcases hsv : s.source with _ | q <;> simp [resetImage, hsv]
  · exact ⟨rfl, rfl, rfl, rfl⟩

/-- C7 witness: crop-mode entry on a concrete loaded panel with stale
markup. -/
theorem c7_witness :
    (((modeChange Mode.crop panelMarked).1.image = panelMarked.source ∧
      (modeChange Mode.crop panelMarked).1.pointer.selectBox
        = { x := 0, y := 0, w := 0, h := 0 } ∧
      (modeChange Mode.crop panelMarked).1.methods = cropSelectBundle) ∧
     ((modeChange Mode.pan panelMarked).1.overlay1 = panelMarked.overlay1 ∧
      (modeChange Mode.pan panelMarked).1.overlay2 = panelMarked.overlay2 ∧
      (modeChange Mode.select panelMarked).1.overlay1 = panelMarked.overlay1 ∧
      (modeChange Mode.select panelMarked).1.overlay2 = panelMarked.overlay2)) :=
  c7_crop_entry_amended panelMarked 7 rfl

/-- C8 counterexample: the state reached by starting a load on a fresh panel
has a null image but status `loading`, so the claimed equivalence between a
null image and status `empty` fails on a reachable state. -/
theorem c8_counterexample :
    Reachable opts0 (step opts0 initialPanel Op.loadStart) ∧
    (step opts0 initialPanel Op.loadStart).image = none ∧
    (step opts0 initialPanel Op.loadStart).status ≠ Status.empty :=
  ⟨Reachable.next initialPanel Op.loadStart Reachable.init, by decide, by decide⟩

/-- C8 (amended): on every reachable panel state, a null image implies the
status is one of the pre-load statuses `empty`, `load`, `loading`; and the
remove operation always nulls the image and sets the status to `empty`. -/
theorem c8_null_image_invariant (opts : Options) (s : PanelState)
    (h : Reachable opts s) :
    (s.image = none →
      s.status = Status.empty ∨ s.status = Status.load ∨ s.status = Status.loading) ∧
    (removeImage s).image = none ∧ (removeImage s).status = Status.empty :=
  ⟨(reachable_inv opts s h).1, rfl, rfl⟩

/-- C8 witness: the amended invariant instantiated at the fresh panel. -/
theorem c8_witness :
    (initialPanel.status = Status.empty ∨ initialPanel.status = Status.load ∨
      initialPanel.status = Status.loading) ∧
    (removeImage initialPanel).image = none ∧
    (removeImage initialPanel).status = Status.empty :=
  ⟨(c8_null_image_invariant opts0 initialPanel Reachable.init).1 rfl,
   (c8_null_image_invariant opts0 initialPanel Reachable.init).2.1,
   (c8_null_image_invariant opts0 initialPanel Reachable.init).2.2⟩

/-- C9: each of the four handler bundles the source ever assigns draws all
four mouse handlers from a single mode's behavior set, and every reachable
panel state has one of those bundles installed, so no reachable handler
configuration mixes handlers of two different modes. -/
theorem c9_handler_bundles (opts : Options) (s : PanelState)
    (h : Reachable opts s) :
    (bundleUniform panBundle ∧ bundleUniform selectBundle ∧
     bundleUniform cropSelectBundle ∧ bundleUniform cropMoveBundle) ∧
    s.methods ∈ installedBundles :=
  ⟨⟨⟨rfl, rfl, rfl⟩, ⟨rfl, rfl, rfl⟩, ⟨rfl, rfl, rfl⟩, ⟨rfl, rfl, rfl⟩⟩,
   (reachable_inv opts s h).2.2⟩

/-- C9 witness: the bundle theorem instantiated at the fresh panel. -/
theorem c9_witness :
    (bundleUniform panBundle ∧ bundleUniform selectBundle ∧
     bundleUniform cropSelectBundle ∧ bundleUniform cropMoveBundle) ∧
    initialPanel.methods ∈ installedBundles :=
  c9_handler_bundles opts0 initialPanel Reachable.init

/-- C10: a select-mode pointer-down whose canvas position falls outside the
rendered image region (below the render offset or beyond offset plus rendered
size) is ignored entirely: the state is returned unchanged and no message is
emitted. -/
theorem c10_outside_ignored (opts : Options) (pos : PointI) (s : PanelState)
    (h : pos.x < s.properties.render_dims.x ∨
         pos.y < s.properties.render_dims.y ∨
         pos.x > s.properties.render_dims.x + s.properties.render_dims.w ∨
         pos.y > s.properties.render_dims.y + s.properties.render_dims.h) :
    selectControlPoint opts pos s = (s, none) := by
  simp only [selectControlPoint]
  split_ifs with h1 h2 <;>
    first
      | rfl
      | (exfalso; push_neg at h1 h2; rcases h with h | h | h | h <;> omega)

/-- C10 witness: a pointer-down well to the right of the rendered image on a
concrete loaded panel is a no-op. -/
theorem c10_witness :
    selectControlPoint opts0 { x := 500, y := 50 } panel150 = (panel150, none) :=
  c10_outside_ignored opts0 { x := 500, y := 50 } panel150 (by decide)

/-- C1 counterexample: on a panel already at `controlPtMax` points, a
pointer-down away from every stored point but outside the rendered image is
dropped by the bounds guard before the capacity check, so no
`maxControlPoints` error is emitted, contradicting the claim's unconditional
error branch. -/
theorem c1_counterexample :
    panelAtCap.pointer.points.length = opts0.controlPtMax ∧
    (∀ p ∈ panelAtCap.pointer.points,
      inRange 1000 1000 (renderedPoint panelAtCap.properties p).x
        (renderedPoint panelAtCap.properties p).y opts0.ptrRadius = false) ∧
    selectControlPoint opts0 { x := 1000, y := 1000 } panelAtCap
      = (panelAtCap, none) := by decide

/-- C1 (amended): for a select-mode pointer-down whose position lies inside
the rendered image and is not within `ptrRadius` of any stored control point:
at `controlPtMax` points the `maxControlPoints` error is emitted and the state
is unchanged; below the cap the new image-space point is appended and no
message is emitted. -/
theorem c1_select_capacity_amended (opts : Options) (pos : PointI)
    (s : PanelState)
    (hx1 : s.properties.render_dims.x ≤ pos.x)
    (hx2 : pos.x ≤ s.properties.render_dims.w + s.properties.render_dims.x)
    (hy1 : s.properties.render_dims.y ≤ pos.y)
    (hy2 : pos.y ≤ s.properties.render_dims.h + s.properties.render_dims.y)
    (hfar : ∀ p ∈ s.pointer.points,
      inRange pos.x pos.y (renderedPoint s.properties p).x
        (renderedPoint s.properties p).y opts.ptrRadius = false) :
    (opts.controlPtMax ≤ s.pointer.points.length →
      selectControlPoint opts pos s = (s, some Msg.maxControlPoints)) ∧
    (s.pointer.points.length < opts.controlPtMax →
      (selectControlPoint opts pos s).1.pointer.points
        = s.pointer.points ++ [actualPoint s.properties pos] ∧
      (selectControlPoint opts pos s).2 = none) := by
  have hg1 : ¬(pos.x > s.properties.render_dims.w + s.properties.render_dims.x ∨
      pos.y > s.properties.render_dims.h + s.properties.render_dims.y) := by omega
  have hg2 : ¬(pos.x < s.properties.render_dims.x ∨
      pos.y < s.properties.render_dims.y) := by omega
  have hnone := hitIndex_eq_none opts s.properties pos s.pointer.points hfar
  simp only [selectControlPoint]
  rw [if_neg hg1, if_neg hg2, hnone]
  constructor
  · intro hcap
    rw [if_pos hcap]
  · intro hlt
    rw [if_neg (by omega)]
    exact ⟨rfl, rfl⟩

/-- C1 witness: the amended theorem applied twice on concrete input: an
in-image click far from all four stored points at capacity emits the error
and changes nothing, and an in-image click on an empty list appends the
image-space point. -/
theorem c1_witness :
    selectControlPoint opts0 { x := 90, y := 20 } panelAtCap
      = (panelAtCap, some Msg.maxControlPoints) ∧
    ((selectControlPoint opts0 { x := 400, y := 300 } panel4k).1.pointer.points
      = panel4k.pointer.points ++ [actualPoint panel4k.properties { x := 400, y := 300 }] ∧
     (selectControlPoint opts0 { x := 400, y := 300 } panel4k).2 = none) :=
  ⟨(c1_select_capacity_amended opts0 { x := 90, y := 20 } panelAtCap
      (by decide) (by decide) (by decide) (by decide) (by decide)).1 (by decide),
   (c1_select_capacity_amended opts0 { x := 400, y := 300 } panel4k
      (by decide) (by decide) (by decide) (by decide) (by decide)).2 (by decide)⟩

/-- C2 counterexample: a select box spilling over both the left and the right
image edge (`{x:-50, y:10, w:300, h:100}` on a 150×300 image) commits as
width 100, not the width-150 intersection with the image bounds, so the
committed box is not always the exact intersection. -/
theorem c2_counterexample :
    (endCropBox panelBoxWide).1.pointer.selectBox
      = { x := 0, y := 10, w := 100, h := 100 } ∧
    rectIntersection panelBoxWide.pointer.selectBox
        panelBoxWide.properties.image_dims.w panelBoxWide.properties.image_dims.h
      = { x := 0, y := 10, w := 150, h := 100 } ∧
    (endCropBox panelBoxWide).1.pointer.selectBox ≠
      rectIntersection panelBoxWide.pointer.selectBox
        panelBoxWide.properties.image_dims.w panelBoxWide.properties.image_dims.h := by
  decide

/-- C2 (amended): for a crop-mode mouse-up/out on a loaded panel with a box of
non-zero width and height, the committed box equals the exact intersection of
the box with the image bounds provided that along each axis the box does not
extend past both image edges and overlaps the image (per axis: the box start
lies in `[0, dim]`, or it is negative with the box end in `[0, dim]`); in
particular `{x:-50, y:10, w:200, h:100}` on a 150×300 image commits as
`{x:0, y:10, w:150, h:100}`. -/
theorem c2_crop_clamp_amended (s : PanelState) (r : Raster)
    (him : s.image = some r) (hst : s.status = Status.loaded)
    (hiw : 0 ≤ s.properties.image_dims.w) (hih : 0 ≤ s.properties.image_dims.h)
    (hw : s.pointer.selectBox.w ≠ 0) (hh : s.pointer.selectBox.h ≠ 0)
    (hx : 0 ≤ s.pointer.selectBox.x ∧
        s.pointer.selectBox.x ≤ s.properties.image_dims.w ∨
      s.pointer.selectBox.x < 0 ∧
        0 ≤ s.pointer.selectBox.x + s.pointer.selectBox.w ∧
        s.pointer.selectBox.x + s.pointer.selectBox.w ≤ s.properties.image_dims.w)
    (hy : 0 ≤ s.pointer.selectBox.y ∧
        s.pointer.selectBox.y ≤ s.properties.image_dims.h ∨
      s.pointer.selectBox.y < 0 ∧
        0 ≤ s.pointer.selectBox.y + s.pointer.selectBox.h ∧
        s.pointer.selectBox.y + s.pointer.selectBox.h ≤ s.properties.image_dims.h) :
    (endCropBox s).1.pointer.selectBox
      = rectIntersection s.pointer.selectBox s.properties.image_dims.w
          s.properties.image_dims.h := by
  have hguard : ¬(s.image = none ∨ s.status ≠ Status.loaded ∨
      s.pointer.selectBox.w = 0 ∨ s.pointer.selectBox.h = 0) := by
    push_neg
    exact ⟨by rw [him]; exact fun hc => Option.noConfusion hc, hst, hw, hh⟩
  simp only [endCropBox]
  rw [if_neg hguard]
  simp only [rectIntersection, jsAbs, Rect.mk.injEq]
  refine ⟨?_, ?_, ?_, ?_⟩ <;>
    first
      | (split_ifs <;> omega)
      | omega

/-- C2 witness: the amended clamp theorem at the spec's example box
`{x:-50, y:10, w:200, h:100}` on the 150×300 panel, whose intersection with
the image bounds is `{x:0, y:10, w:150, h:100}`. -/
theorem c2_witness :
    (endCropBox panelBoxExample).1.pointer.selectBox
      = rectIntersection panelBoxExample.pointer.selectBox
          panelBoxExample.properties.image_dims.w
          panelBoxExample.properties.image_dims.h ∧
    rectIntersection panelBoxExample.pointer.selectBox
        panelBoxExample.properties.image_dims.w
        panelBoxExample.properties.image_dims.h
      = { x := 0, y := 10, w := 150, h := 100 } :=
  ⟨c2_crop_clamp_amended panelBoxExample 7 rfl rfl (by decide) (by decide)
      (by decide) (by decide) (by decide) (by decide),
   by decide⟩
